import Mathlib

/-!
Verification of the AIGovHub policy enforcement engine
(`backend/app/core/policy_engine.py` and its data model in
`backend/app/models/`), shallowly embedded in Lean 4.

The database session is modelled as an explicit state (`Session`) holding
the rows of the tables the engine touches, in insertion order; fallible
persistence operations are modelled in `Except PyError`.  Python `datetime`
values are modelled as `Nat` ticks.  String literals containing Python
apostrophes use the `\x27` escape.
-/

namespace AIGovHub

/-- Errors raised by the embedded Python code: a failing database
read/commit (`PersistenceError`), and an `AttributeError` from reading
an attribute a class does not declare. -/
inductive PyError where
  | persistenceError
  | attributeError
deriving DecidableEq

/-- EU AI Act risk classification levels (`all_models.py`, `RiskLevel`). -/
inductive RiskLevel where
  | unclassified
  | minimal
  | limited
  | high
  | unacceptable
deriving DecidableEq

/-- String value of a `RiskLevel` member (it is a Python `str` enum). -/
def RiskLevel.value : RiskLevel → String
  | .unclassified => "unclassified"
  | .minimal => "minimal"
  | .limited => "limited"
  | .high => "high"
  | .unacceptable => "unacceptable"

/-- Compliance lifecycle status (`all_models.py`, `ComplianceStatus`). -/
inductive ComplianceStatus where
  | draft
  | under_review
  | approved
  | retired
deriving DecidableEq

/-- String value of a `ComplianceStatus` member. -/
def ComplianceStatus.value : ComplianceStatus → String
  | .draft => "draft"
  | .under_review => "under_review"
  | .approved => "approved"
  | .retired => "retired"

/-- Scope of policy application (`models/policy.py`, `PolicyScope`). -/
inductive PolicyScope where
  | global_
  | organization
  | environment
deriving DecidableEq

/-- Types of policy conditions (`models/policy.py`, `PolicyConditionType`). -/
inductive PolicyConditionType where
  | require_evaluation_before_approval
  | block_high_risk_without_approval
  | require_review_for_high_risk
deriving DecidableEq

/-- String value of a `PolicyConditionType` member. -/
def PolicyConditionType.value : PolicyConditionType → String
  | .require_evaluation_before_approval => "require_evaluation_before_approval"
  | .block_high_risk_without_approval => "block_high_risk_without_approval"
  | .require_review_for_high_risk => "require_review_for_high_risk"

/-- A model version row (`all_models.py`, `ModelVersion`). -/
structure ModelVersion where
  id : Option Nat := none
  model_id : Nat
  version_tag : String := ""
  s3_path : Option String := none
  created_at : Nat := 0
deriving DecidableEq

/-- An evaluation metric row (`all_models.py`, `EvaluationMetric`).  The
numeric `value : float` column is never read by the policy engine and is
left out of the embedding. -/
structure EvaluationMetric where
  id : Option Nat := none
  version_id : Nat
  metric_name : String := ""
  timestamp : Nat := 0
deriving DecidableEq

/-- A registered model (`all_models.py`, `ModelRegistry`), with exactly the
fields the source class declares — in particular it declares NO
`organization_id` field (see `modelRegistryFields`). -/
structure ModelRegistry where
  id : Option Nat := none
  name : String := ""
  description : Option String := none
  owner : String := ""
  created_at : Nat := 0
  risk_level : RiskLevel := .unclassified
  domain : Option String := none
  potential_harm : Option String := none
  compliance_status : ComplianceStatus := .draft
  intended_purpose : Option String := none
  data_sources : Option String := none
  oversight_plan : Option String := none
  versions : List ModelVersion := []
deriving DecidableEq

/-- The attribute names declared by the `ModelRegistry` class in
`all_models.py` lines 26-46 (fields of the SQLModel class, plus the
`versions` relationship).  Python raises `AttributeError` for a read of
any name outside this list. -/
def modelRegistryFields : List String :=
  ["id", "name", "description", "owner", "created_at",
   "risk_level", "domain", "potential_harm", "compliance_status",
   "intended_purpose", "data_sources", "oversight_plan", "versions"]

/-- A governance policy row (`models/policy.py`, `Policy`). -/
structure Policy where
  id : Option Nat := none
  name : String
  description : Option String := none
  scope : PolicyScope := .global_
  condition_type : PolicyConditionType
  is_active : Bool := true
  created_at : Nat := 0
  updated_at : Option Nat := none
  organization_id : Option Nat := none
deriving DecidableEq

/-- The structured details payload written into a `PolicyViolation` by
`enforce_compliance_status_change` (`policy_engine.py` lines 119-125). -/
structure ViolationDetails where
  attempted_status : String
  current_status : String
  policy_name : String
  policy_condition : String
  reason : String
deriving DecidableEq

/-- A policy violation row (`models/policy.py`, `PolicyViolation`). -/
structure PolicyViolation where
  id : Option Nat := none
  policy_id : Option Nat
  model_id : Option Nat := none
  model_version_id : Option Nat := none
  user_id : Option Nat := none
  action : String
  details : ViolationDetails
  created_at : Nat := 0
deriving DecidableEq

/-- The structured details payload written into the audit `ComplianceLog`
by `enforce_compliance_status_change` (`policy_engine.py` lines 134-139). -/
structure AuditDetails where
  policy_id : Option Nat
  policy_name : String
  attempted_action : String
  blocked : Bool
deriving DecidableEq

/-- An audit log row (`all_models.py`, `ComplianceLog`). -/
structure ComplianceLog where
  id : Option Nat := none
  entity_type : String
  entity_id : String
  action : String
  details : AuditDetails
  timestamp : Nat := 0
deriving DecidableEq

/-- The database session: rows of the tables touched by the policy engine,
each list in insertion (creation) order, plus two fault flags modelling a
failing policy-table read and a failing commit. -/
structure Session where
  policies : List Policy := []
  metrics : List EvaluationMetric := []
  violations : List PolicyViolation := []
  logs : List ComplianceLog := []
  policyReadFails : Bool := false
  commitFails : Bool := false
deriving DecidableEq

/-- Result of a policy enforcement check (`policy_engine.py`,
`PolicyEnforcementResult`). -/
structure PolicyEnforcementResult where
  allowed : Bool
  violation : Option PolicyViolation := none
  message : String := ""
deriving DecidableEq

/-- Python truthiness of the `organization_id : Optional[int]` argument at
`policy_engine.py` line 24 (`if organization_id:`): `None` and `0` are
falsy, every other int is truthy. -/
def orgFilterApplies : Option Nat → Bool
  | none => false
  | some t => t != 0

/-- The row filter applied by `get_active_policies`: `is_active == True`,
and — only when the `organization_id` argument is truthy — additionally
`organization_id IS NULL OR organization_id == <argument>`.  Note the
source never consults `scope`. -/
def applicableFilter (oid : Option Nat) (p : Policy) : Bool :=
  if orgFilterApplies oid then
    p.is_active && (p.organization_id == none || p.organization_id == oid)
  else
    p.is_active

/-- Embeds `get_active_policies` (`policy_engine.py` lines 21-29): selects
the active (and, for a truthy organization id, org-matching or global)
policies in stored row order; a failing read raises `PersistenceError`. -/
def get_active_policies (s : Session) (organization_id : Option Nat) :
    Except PyError (List Policy) :=
  if s.policyReadFails then .error .persistenceError
  else .ok (s.policies.filter (applicableFilter organization_id))

/-- Embeds `check_require_evaluation_before_approval` (`policy_engine.py`
lines 32-51): satisfied unless approving a model none of whose versions
has an evaluation metric row. -/
def check_require_evaluation_before_approval (s : Session)
    (model : ModelRegistry) (new_status : ComplianceStatus) : Bool :=
  if new_status != .approved then true
  else model.versions.any fun version =>
    s.metrics.any fun metric => some metric.version_id == version.id

/-- Embeds `check_block_high_risk_without_approval` (`policy_engine.py`
lines 54-69): high/unacceptable-risk models cannot go straight from
`draft` to `approved`. -/
def check_block_high_risk_without_approval (_s : Session)
    (model : ModelRegistry) (new_status : ComplianceStatus) : Bool :=
  if !(["high", "unacceptable"].contains model.risk_level.value) then true
  else if new_status == .approved && model.compliance_status == .draft then false
  else true

/-- Embeds `check_require_review_for_high_risk` (`policy_engine.py` lines
72-85): a pass-through that always returns `True`. -/
def check_require_review_for_high_risk (_s : Session)
    (_model : ModelRegistry) (_new_status : ComplianceStatus) : Bool :=
  if !(["high", "unacceptable"].contains _model.risk_level.value) then true
  else true

/-- Embeds the `POLICY_CHECKS` dictionary lookup (`policy_engine.py` lines
88-92, used via `.get` at line 108): maps each condition type to its check
function, `none` for an unknown key.  All three members of the source enum
are present. -/
def POLICY_CHECKS (ct : PolicyConditionType) :
    Option (Session → ModelRegistry → ComplianceStatus → Bool) :=
  match ct with
  | .require_evaluation_before_approval => some check_require_evaluation_before_approval
  | .block_high_risk_without_approval => some check_block_high_risk_without_approval
  | .require_review_for_high_risk => some check_require_review_for_high_risk

/-- The check function bound to a condition type (total, since every
member of `PolicyConditionType` has an entry in `POLICY_CHECKS`). -/
def checkOf (ct : PolicyConditionType) :
    Session → ModelRegistry → ComplianceStatus → Bool :=
  match ct with
  | .require_evaluation_before_approval => check_require_evaluation_before_approval
  | .block_high_risk_without_approval => check_block_high_risk_without_approval
  | .require_review_for_high_risk => check_require_review_for_high_risk

/-- Outcome of evaluating one policy's bound predicate against the model
and the proposed status (`check_fn(session, model, new_status)`). -/
def runCheck (s : Session) (model : ModelRegistry)
    (new_status : ComplianceStatus) (p : Policy) : Bool :=
  checkOf p.condition_type s model new_status

/-- Python `str(model.id)` for `id : Optional[int]`. -/
def strOptId : Option Nat → String
  | none => "None"
  | some i => toString i

/-- The `PolicyViolation` record built at `policy_engine.py` lines 114-126
when `policy` blocks the transition.  The `reason` field carries no
description/condition suffix. -/
def mkViolation (policy : Policy) (model : ModelRegistry)
    (new_status : ComplianceStatus) (user_id : Option Nat) : PolicyViolation :=
  { policy_id := policy.id
    model_id := model.id
    user_id := user_id
    action := "change_compliance_status"
    details :=
      { attempted_status := new_status.value
        current_status := model.compliance_status.value
        policy_name := policy.name
        policy_condition := policy.condition_type.value
        reason := "Policy \x27" ++ policy.name ++ "\x27 blocked this action" } }

/-- The audit `ComplianceLog` record built at `policy_engine.py` lines
130-140 when `policy` blocks the transition. -/
def mkAudit (policy : Policy) (model : ModelRegistry) : ComplianceLog :=
  { entity_type := "PolicyViolation"
    entity_id := strOptId model.id
    action := "POLICY_VIOLATION"
    details :=
      { policy_id := policy.id
        policy_name := policy.name
        attempted_action := "change_compliance_status"
        blocked := true } }

/-- The message attached to a blocking `PolicyEnforcementResult`
(`policy_engine.py` line 147): `policy.description or
policy.condition_type.value` falls back when the description is `None` or
the empty string (Python falsiness of `or`). -/
def mkMessage (policy : Policy) : String :=
  "Policy \x27" ++ policy.name ++ "\x27 blocked this action: " ++
    (match policy.description with
     | some d => if d == "" then policy.condition_type.value else d
     | none => policy.condition_type.value)

/-- The session state after committing one violation and one audit row. -/
def commitBlock (s : Session) (policy : Policy) (model : ModelRegistry)
    (new_status : ComplianceStatus) (user_id : Option Nat) : Session :=
  { s with
    violations := s.violations ++ [mkViolation policy model new_status user_id]
    logs := s.logs ++ [mkAudit policy model] }

/-- The blocking result returned at `policy_engine.py` lines 144-148. -/
def blockResult (policy : Policy) (model : ModelRegistry)
    (new_status : ComplianceStatus) (user_id : Option Nat) :
    PolicyEnforcementResult :=
  { allowed := false
    violation := some (mkViolation policy model new_status user_id)
    message := mkMessage policy }

/-- Embeds the `for policy in policies` loop of
`enforce_compliance_status_change` (`policy_engine.py` lines 107-150).
Besides the updated session and the result, it returns the list of
policies whose bound predicate was actually evaluated, in evaluation
order (the side-effect trace needed to state the short-circuit claim);
a policy with no entry in `POLICY_CHECKS` is skipped without evaluation.
A failing commit on the blocking path raises `PersistenceError` and
persists nothing. -/
def enforce_from (s : Session) (model : ModelRegistry)
    (new_status : ComplianceStatus) (user_id : Option Nat) :
    List Policy → Except PyError (Session × PolicyEnforcementResult × List Policy)
  | [] => .ok (s, { allowed := true }, [])
  | policy :: rest =>
    match POLICY_CHECKS policy.condition_type with
    | none => enforce_from s model new_status user_id rest
    | some check_fn =>
      if check_fn s model new_status then
        match enforce_from s model new_status user_id rest with
        | .error e => .error e
        | .ok (s', r, tr) => .ok (s', r, policy :: tr)
      else
        if s.commitFails then .error .persistenceError
        else .ok (commitBlock s policy model new_status user_id,
                  blockResult policy model new_status user_id,
                  [policy])

/-- Embeds `enforce_compliance_status_change` (`policy_engine.py` lines
95-150) from the point where the value of `model.organization_id` is in
hand: `organization_id` is that value, passed straight to
`get_active_policies` exactly as at line 105.  (The attribute read itself
is embedded separately in `enforce_compliance_status_change_entry`,
because the `ModelRegistry` class declares no such field.) -/
def enforce_compliance_status_change (s : Session) (model : ModelRegistry)
    (organization_id : Option Nat) (new_status : ComplianceStatus)
    (user_id : Option Nat) :
    Except PyError (Session × PolicyEnforcementResult × List Policy) :=
  match get_active_policies s organization_id with
  | .error e => .error e
  | .ok policies => enforce_from s model new_status user_id policies

/-- Embeds the attribute read `model.organization_id` performed at
`policy_engine.py` line 105.  Python attribute lookup on a
`ModelRegistry` instance succeeds only for the names the class declares
(`modelRegistryFields`); since `"organization_id"` is not among them the
read raises `AttributeError` (the `ok` branch is unreachable, and the
value it would carry is immaterial). -/
def readModelOrganizationId (_model : ModelRegistry) :
    Except PyError (Option Nat) :=
  if modelRegistryFields.contains "organization_id" then .ok none
  else .error .attributeError

/-- Embeds the full entry point `enforce_compliance_status_change` as
called by the status-update route, including the `model.organization_id`
attribute read at line 105. -/
def enforce_compliance_status_change_entry (s : Session)
    (model : ModelRegistry) (new_status : ComplianceStatus)
    (user_id : Option Nat) :
    Except PyError (Session × PolicyEnforcementResult × List Policy) :=
  match readModelOrganizationId model with
  | .error e => .error e
  | .ok oid => enforce_compliance_status_change s model oid new_status user_id

/-- The update payload accepted by `PATCH /policies/\x7bid\x7d`
(`policy_routes.py`, `PolicyUpdate`): only `name`, `description` and
`is_active` are declared; `none` in the outer option models a field
absent from the request (pydantic `exclude_unset`). -/
structure PolicyUpdate where
  name : Option String := none
  description : Option (Option String) := none
  is_active : Option Bool := none

/-- Embeds the row mutation of `update_policy` (`policy_routes.py` lines
107-126): each field present in the payload is written onto the policy
with `setattr`, then `updated_at` is set to the current time. -/
def update_policy (p : Policy) (payload : PolicyUpdate) (now : Nat) : Policy :=
  let p1 := match payload.name with
    | none => p
    | some n => { p with name := n }
  let p2 := match payload.description with
    | none => p1
    | some d => { p1 with description := d }
  let p3 := match payload.is_active with
    | none => p2
    | some b => { p2 with is_active := b }
  { p3 with updated_at := some now }

/-- Fixture: an active global evidence-before-approval policy, created
first. -/
def pEval : Policy :=
  { id := some 1, name := "P1",
    condition_type := .require_evaluation_before_approval, created_at := 1 }

/-- Fixture: a second active evidence-before-approval policy, created
later. -/
def pEval2 : Policy :=
  { id := some 2, name := "P2",
    condition_type := .require_evaluation_before_approval, created_at := 2 }

/-- Fixture: an active pass-through policy (`require_review_for_high_risk`
is satisfied for every input). -/
def pNoop : Policy :=
  { id := some 3, name := "P3",
    condition_type := .require_review_for_high_risk, created_at := 3 }

/-- Fixture: an active org-scoped policy belonging to organization 1. -/
def pOrg1 : Policy :=
  { id := some 7, name := "OrgOnly",
    condition_type := .require_evaluation_before_approval,
    scope := .organization, organization_id := some 1, created_at := 5 }

/-- Fixture: an active policy carrying a description. -/
def pDesc : Policy :=
  { id := some 8, name := "P8", description := some "needs evidence",
    condition_type := .require_evaluation_before_approval, created_at := 6 }

/-- Fixture: a policy named `A`, used for the update counterexample. -/
def pNamed : Policy :=
  { id := some 9, name := "A",
    condition_type := .require_evaluation_before_approval, created_at := 4 }

/-- Fixture: an update payload that only renames the policy. -/
def renamePayload : PolicyUpdate := { name := some "B" }

/-- Fixture: a registered model with no versions (hence no evidence). -/
def mNoEvidence : ModelRegistry := { id := some 1, name := "m1" }

/-- Fixture: a session with a failing policy followed by a satisfied
policy. -/
def sTwo : Session := { policies := [pEval, pNoop] }

/-- Fixture: a session with two failing policies in creation order. -/
def sTwoFail : Session := { policies := [pEval, pEval2] }

/-- Fixture: a session holding only the org-1-scoped policy. -/
def sOrg : Session := { policies := [pOrg1] }

/-- Fixture: an active policy with `scope = global` that nevertheless
carries `organization_id = 1`. -/
def pGlobScoped : Policy :=
  { id := some 10, name := "GlobalScoped",
    condition_type := .require_evaluation_before_approval,
    scope := .global_, organization_id := some 1, created_at := 7 }

/-- Fixture: a session holding only the globally-scoped org-1 policy. -/
def sGlob : Session := { policies := [pGlobScoped] }

/-- Fixture: a session holding only the described policy. -/
def sDesc : Session := { policies := [pDesc] }

/-- Fixture: a session holding only the pass-through policy. -/
def sNoop : Session := { policies := [pNoop] }

/-- Fixture: a session whose commit fails. -/
def sCommitFail : Session := { policies := [pEval], commitFails := true }

/-- Fixture: a session whose policy-table read fails. -/
def sReadFail : Session := { policies := [pEval], policyReadFails := true }

/-- The applicable policy list resolved for one enforcement pass (the
value `get_active_policies` returns on a successful read). -/
def applicablePolicies (s : Session) (oid : Option Nat) : List Policy :=
  s.policies.filter (applicableFilter oid)

lemma get_active_policies_ok (s : Session) (oid : Option Nat)
    (h : s.policyReadFails = false) :
    get_active_policies s oid = .ok (applicablePolicies s oid) := by
  simp [get_active_policies, h, applicablePolicies]

lemma POLICY_CHECKS_eq (ct : PolicyConditionType) :
    POLICY_CHECKS ct = some (checkOf ct) := by
  cases ct <;> rfl

lemma enforce_from_all_true (s : Session) (m : ModelRegistry)
    (ns : ComplianceStatus) (uid : Option Nat) :
    ∀ ps : List Policy, (∀ p ∈ ps, runCheck s m ns p = true) →
      enforce_from s m ns uid ps = .ok (s, { allowed := true }, ps)
  | [], _ => by simp [enforce_from]
  | p :: rest, h => by
    have hp : runCheck s m ns p = true := h p (List.mem_cons_self p rest)
    have ih := enforce_from_all_true s m ns uid rest
      (fun q hq => h q (List.mem_cons_of_mem p hq))
    simp only [enforce_from, POLICY_CHECKS_eq]
    rw [show checkOf p.condition_type s m ns = true from hp]
    simp [ih]

lemma enforce_from_firstFail (s : Session) (m : ModelRegistry)
    (ns : ComplianceStatus) (uid : Option Nat) (hc : s.commitFails = false) :
    ∀ (ps : List Policy) (k : Nat) (hk : k < ps.length),
      runCheck s m ns (ps.get ⟨k, hk⟩) = false →
      (∀ j (hj : j < k), runCheck s m ns (ps.get ⟨j, Nat.lt_trans hj hk⟩) = true) →
      enforce_from s m ns uid ps =
        .ok (commitBlock s (ps.get ⟨k, hk⟩) m ns uid,
             blockResult (ps.get ⟨k, hk⟩) m ns uid,
             ps.take (k+1))
  | [], k, hk, _, _ => absurd hk (Nat.not_lt_zero k)
  | p :: rest, 0, _, hfail, _ => by
    simp only [List.get] at hfail
    simp only [enforce_from, POLICY_CHECKS_eq]
    rw [show checkOf p.condition_type s m ns = false from hfail]
    simp [hc, List.take]
  | p :: rest, k+1, hk, hfail, hbefore => by
    have hp : runCheck s m ns p = true := by
      have := hbefore 0 (Nat.succ_pos k)
      simpa using this
    have hk' : k < rest.length := Nat.lt_of_succ_lt_succ hk
    have hfail' : runCheck s m ns (rest.get ⟨k, hk'⟩) = false := by
      simpa using hfail
    have hbefore' : ∀ j (hj : j < k),
        runCheck s m ns (rest.get ⟨j, Nat.lt_trans hj hk'⟩) = true := by
      intro j hj
      have := hbefore (j+1) (Nat.succ_lt_succ hj)
      simpa using this
    have ih := enforce_from_firstFail s m ns uid hc rest k hk' hfail' hbefore'
    simp only [enforce_from, POLICY_CHECKS_eq]
    rw [show checkOf p.condition_type s m ns = true from hp]
    simp [ih, List.take]

lemma enforce_from_commitFail_firstFail (s : Session) (m : ModelRegistry)
    (ns : ComplianceStatus) (uid : Option Nat) (hc : s.commitFails = true) :
    ∀ (ps : List Policy) (k : Nat) (hk : k < ps.length),
      runCheck s m ns (ps.get ⟨k, hk⟩) = false →
      (∀ j (hj : j < k), runCheck s m ns (ps.get ⟨j, Nat.lt_trans hj hk⟩) = true) →
      enforce_from s m ns uid ps = .error .persistenceError
  | [], k, hk, _, _ => absurd hk (Nat.not_lt_zero k)
  | p :: rest, 0, _, hfail, _ => by
    simp only [List.get] at hfail
    simp only [enforce_from, POLICY_CHECKS_eq]
    rw [show checkOf p.condition_type s m ns = false from hfail]
    simp [hc]
  | p :: rest, k+1, hk, hfail, hbefore => by
    have hp : runCheck s m ns p = true := by
      have := hbefore 0 (Nat.succ_pos k)
      simpa using this
    have hk' : k < rest.length := Nat.lt_of_succ_lt_succ hk
    have hfail' : runCheck s m ns (rest.get ⟨k, hk'⟩) = false := by
      simpa using hfail
    have hbefore' : ∀ j (hj : j < k),
        runCheck s m ns (rest.get ⟨j, Nat.lt_trans hj hk'⟩) = true := by
      intro j hj
      have := hbefore (j+1) (Nat.succ_lt_succ hj)
      simpa using this
    have ih := enforce_from_commitFail_firstFail s m ns uid hc rest k hk' hfail' hbefore'
    simp only [enforce_from, POLICY_CHECKS_eq]
    rw [show checkOf p.condition_type s m ns = true from hp]
    simp [ih]

lemma enforce_from_commitFail_ok (s : Session) (m : ModelRegistry)
    (ns : ComplianceStatus) (uid : Option Nat) (hc : s.commitFails = true) :
    ∀ (ps : List Policy) (s' : Session) (r : PolicyEnforcementResult)
      (tr : List Policy),
      enforce_from s m ns uid ps = .ok (s', r, tr) →
      s' = s ∧ r = { allowed := true }
  | [], s', r, tr, h => by
    simp only [enforce_from, Except.ok.injEq, Prod.mk.injEq] at h
    exact ⟨h.1.symm, h.2.1.symm⟩
  | p :: rest, s', r, tr, h => by
    cases hchk : checkOf p.condition_type s m ns with
    | false =>
      simp [enforce_from, POLICY_CHECKS_eq, hchk, hc] at h
    | true =>
      cases hrec : enforce_from s m ns uid rest with
      | error e =>
        simp [enforce_from, POLICY_CHECKS_eq, hchk, hrec] at h
      | ok out =>
        obtain ⟨s1, r1, t1⟩ := out
        have hsub := enforce_from_commitFail_ok s m ns uid hc rest s1 r1 t1 hrec
        simp only [enforce_from, POLICY_CHECKS_eq, hchk, if_true, hrec,
          Except.ok.injEq, Prod.mk.injEq] at h
        exact ⟨h.1 ▸ hsub.1, h.2.1 ▸ hsub.2⟩

lemma enforce_from_trace_mem (s : Session) (m : ModelRegistry)
    (ns : ComplianceStatus) (uid : Option Nat) :
    ∀ (ps : List Policy) (s' : Session) (r : PolicyEnforcementResult)
      (tr : List Policy),
      enforce_from s m ns uid ps = .ok (s', r, tr) →
      ∀ p ∈ tr, p ∈ ps
  | [], s', r, tr, h => by
    simp only [enforce_from, Except.ok.injEq, Prod.mk.injEq] at h
    intro p hp
    rw [← h.2.2] at hp
    exact absurd hp (List.not_mem_nil p)
  | q :: rest, s', r, tr, h => by
    cases hchk : checkOf q.condition_type s m ns with
    | false =>
      cases hcf : s.commitFails with
      | true => simp [enforce_from, POLICY_CHECKS_eq, hchk, hcf] at h
      | false =>
        simp only [enforce_from, POLICY_CHECKS_eq, hchk, hcf,
          Bool.false_eq_true, if_false, Except.ok.injEq, Prod.mk.injEq] at h
        intro p hp
        rw [← h.2.2] at hp
        have : p = q := by simpa using hp
        exact this ▸ List.mem_cons_self q rest
    | true =>
      cases hrec : enforce_from s m ns uid rest with
      | error e =>
        simp [enforce_from, POLICY_CHECKS_eq, hchk, hrec] at h
      | ok out =>
        obtain ⟨s1, r1, t1⟩ := out
        simp only [enforce_from, POLICY_CHECKS_eq, hchk, if_true, hrec,
          Except.ok.injEq, Prod.mk.injEq] at h
        intro p hp
        rw [← h.2.2] at hp
        rcases List.mem_cons.mp hp with hq | hin
        · exact hq ▸ List.mem_cons_self q rest
        · exact List.mem_cons_of_mem q
            (enforce_from_trace_mem s m ns uid rest s1 r1 t1 hrec p hin)

lemma enforce_from_violation_origin (s : Session) (m : ModelRegistry)
    (ns : ComplianceStatus) (uid : Option Nat) :
    ∀ (ps : List Policy) (s' : Session) (r : PolicyEnforcementResult)
      (tr : List Policy),
      enforce_from s m ns uid ps = .ok (s', r, tr) →
      ∀ v, r.violation = some v → ∃ p ∈ ps, v = mkViolation p m ns uid
  | [], s', r, tr, h => by
    simp only [enforce_from, Except.ok.injEq, Prod.mk.injEq] at h
    intro v hv
    rw [← h.2.1] at hv
    exact absurd hv (by simp)
  | q :: rest, s', r, tr, h => by
    cases hchk : checkOf q.condition_type s m ns with
    | false =>
      cases hcf : s.commitFails with
      | true => simp [enforce_from, POLICY_CHECKS_eq, hchk, hcf] at h
      | false =>
        simp only [enforce_from, POLICY_CHECKS_eq, hchk, hcf,
          Bool.false_eq_true, if_false, Except.ok.injEq, Prod.mk.injEq] at h
        intro v hv
        rw [← h.2.1] at hv
        simp only [blockResult, Option.some.injEq] at hv
        exact ⟨q, List.mem_cons_self q rest, hv.symm⟩
    | true =>
      cases hrec : enforce_from s m ns uid rest with
      | error e =>
        simp [enforce_from, POLICY_CHECKS_eq, hchk, hrec] at h
      | ok out =>
        obtain ⟨s1, r1, t1⟩ := out
        simp only [enforce_from, POLICY_CHECKS_eq, hchk, if_true, hrec,
          Except.ok.injEq, Prod.mk.injEq] at h
        intro v hv
        rw [← h.2.1] at hv
        obtain ⟨p, hp, hvp⟩ :=
          enforce_from_violation_origin s m ns uid rest s1 r1 t1 hrec v hv
        exact ⟨p, List.mem_cons_of_mem q hp, hvp⟩

lemma contains_high_value (rl : RiskLevel) :
    (["high", "unacceptable"].contains rl.value) =
      (rl == RiskLevel.high || rl == RiskLevel.unacceptable) := by
  cases rl <;> rfl

section Theorems

/-- C6: `check_require_evaluation_before_approval` returns `false` exactly
when the proposed status is `approved` and no version of the model has an
evaluation metric row; every non-approval proposal returns `true`
regardless of evidence, and once any version has a metric the approval
transition is satisfied. -/
theorem C6_evidence_before_approval_semantics (s : Session)
    (m : ModelRegistry) (ns : ComplianceStatus) :
    (check_require_evaluation_before_approval s m ns = false ↔
      (ns = .approved ∧ ∀ v ∈ m.versions, ∀ met ∈ s.metrics,
        some met.version_id ≠ v.id))
    ∧ (ns ≠ .approved → check_require_evaluation_before_approval s m ns = true)
    ∧ ((∃ v ∈ m.versions, ∃ met ∈ s.metrics, some met.version_id = v.id) →
        check_require_evaluation_before_approval s m .approved = true) := by
  refine ⟨?_, ?_, ?_⟩
  · by_cases hns : ns = .approved
    · subst hns
      simp [check_require_evaluation_before_approval, List.any_eq_true,
        List.any_eq_false]
    · simp [check_require_evaluation_before_approval,
        bne_iff_ne, hns]
  · intro hns
    simp [check_require_evaluation_before_approval, bne_iff_ne, hns]
  · intro ⟨v, hv, met, hmet, heq⟩
    simp only [check_require_evaluation_before_approval]
    rw [if_neg (by simp)]
    rw [List.any_eq_true]
    exact ⟨v, hv, by rw [List.any_eq_true]; exact ⟨met, hmet, by simp [heq]⟩⟩

/-- C7: `check_block_high_risk_without_approval` returns `false` exactly
when the model's risk level is `high` or `unacceptable`, the proposed
status is `approved`, and the current compliance status is `draft`; every
other combination returns `true`. -/
theorem C7_block_high_risk_semantics (s : Session) (m : ModelRegistry)
    (ns : ComplianceStatus) :
    check_block_high_risk_without_approval s m ns = false ↔
      ((m.risk_level = .high ∨ m.risk_level = .unacceptable) ∧
        ns = .approved ∧ m.compliance_status = .draft) := by
  have hcv := contains_high_value m.risk_level
  cases hr : m.risk_level <;> cases hns : ns <;> cases hcs : m.compliance_status <;>
    simp [check_block_high_risk_without_approval, hr, hns, hcs,
      contains_high_value] <;> decide

/-- C9 counterexample: the policy-update operation accepts a payload that
sets `name`, and the policy's name is changed by it — refuting the claim
that the name is unchanged by every accepted update. -/
theorem C9_counterexample :
    (update_policy pNamed renamePayload 10).name ≠ pNamed.name := by
  decide

/-- C9 (amended): a policy update leaves `condition_type`, `scope`,
`organization_id`, `created_at` and `id` unchanged; only `name`,
`description`, `is_active` and `updated_at` can differ (the accepted
payload declares exactly `name`, `description` and `is_active`). -/
theorem C9_update_frame (p : Policy) (u : PolicyUpdate) (now : Nat) :
    (update_policy p u now).condition_type = p.condition_type ∧
    (update_policy p u now).scope = p.scope ∧
    (update_policy p u now).organization_id = p.organization_id ∧
    (update_policy p u now).created_at = p.created_at ∧
    (update_policy p u now).id = p.id := by
  obtain ⟨n, d, a⟩ := u
  cases n <;> cases d <;> cases a <;> simp [update_policy]

/-- C10: the `ModelRegistry` class declares no `organization_id`
attribute, so the attribute read that begins every enforcement pass
(`policy_engine.py` line 105) raises `AttributeError` for every
`ModelRegistry` entity, and predicate evaluation is never reached. -/
theorem C10_enforce_entry_attribute_error :
    modelRegistryFields.contains "organization_id" = false ∧
    ∀ (s : Session) (m : ModelRegistry) (ns : ComplianceStatus)
      (uid : Option Nat),
      enforce_compliance_status_change_entry s m ns uid =
        .error .attributeError := by
  have h : modelRegistryFields.contains "organization_id" = false := by decide
  refine ⟨h, ?_⟩
  intro s m ns uid
  have h2 : readModelOrganizationId m = .error .attributeError := rfl
  simp [enforce_compliance_status_change_entry, h2]

/-- C1: when the policy at index `k` of the applicable list is the first
whose bound predicate is unsatisfied, enforcement returns a blocked
result naming policy `k`, appends exactly one violation row and one
`POLICY_VIOLATION` audit row, and the evaluation trace is exactly the
first `k+1` applicable policies — no later predicate is evaluated. -/
theorem C1_short_circuit (s : Session) (m : ModelRegistry) (oid : Option Nat)
    (ns : ComplianceStatus) (uid : Option Nat)
    (hread : s.policyReadFails = false) (hcommit : s.commitFails = false)
    (k : Nat) (hk : k < (applicablePolicies s oid).length)
    (hfail : runCheck s m ns ((applicablePolicies s oid).get ⟨k, hk⟩) = false)
    (hbefore : ∀ j (hj : j < k),
      runCheck s m ns ((applicablePolicies s oid).get ⟨j, Nat.lt_trans hj hk⟩) = true) :
    enforce_compliance_status_change s m oid ns uid =
      .ok (commitBlock s ((applicablePolicies s oid).get ⟨k, hk⟩) m ns uid,
           blockResult ((applicablePolicies s oid).get ⟨k, hk⟩) m ns uid,
           (applicablePolicies s oid).take (k+1))
    ∧ (commitBlock s ((applicablePolicies s oid).get ⟨k, hk⟩) m ns uid).violations =
        s.violations ++ [mkViolation ((applicablePolicies s oid).get ⟨k, hk⟩) m ns uid]
    ∧ (commitBlock s ((applicablePolicies s oid).get ⟨k, hk⟩) m ns uid).logs =
        s.logs ++ [mkAudit ((applicablePolicies s oid).get ⟨k, hk⟩) m]
    ∧ (blockResult ((applicablePolicies s oid).get ⟨k, hk⟩) m ns uid).allowed = false
    ∧ (blockResult ((applicablePolicies s oid).get ⟨k, hk⟩) m ns uid).violation =
        some (mkViolation ((applicablePolicies s oid).get ⟨k, hk⟩) m ns uid) := by
  refine ⟨?_, rfl, rfl, rfl, rfl⟩
  simp only [enforce_compliance_status_change, get_active_policies_ok s oid hread]
  exact enforce_from_firstFail s m ns uid hcommit _ k hk hfail hbefore

/-- C1 witness: in a session with a failing evidence policy followed by a
pass-through policy, enforcing approval of a model without evidence
blocks on the first policy and evaluates only it. -/
theorem C1_short_circuit_witness :
    enforce_compliance_status_change sTwo mNoEvidence none .approved none =
      .ok (commitBlock sTwo pEval mNoEvidence .approved none,
           blockResult pEval mNoEvidence .approved none, [pEval]) := by
  have h := C1_short_circuit sTwo mNoEvidence none .approved none rfl rfl 0
    (by decide) (by decide) (fun j hj => absurd hj (Nat.not_lt_zero j))
  exact h.1

/-- C2 counterexample: an active policy with `organization_id = 1` blocks
a transition for an entity with no tenant, because `get_active_policies`
skips the organization filter entirely when its argument is falsy —
refuting "a policy with organizationId = T1 never blocks a transition for
an entity with no tenant". -/
theorem C2_counterexample :
    (pOrg1.organization_id = some 1 ∧ pOrg1.is_active = true ∧
     enforce_compliance_status_change sOrg mNoEvidence none .approved none =
       .ok (commitBlock sOrg pOrg1 mNoEvidence .approved none,
            blockResult pOrg1 mNoEvidence .approved none, [pOrg1]) ∧
     (blockResult pOrg1 mNoEvidence .approved none).allowed = false) ∧
    (pGlobScoped.scope = .global_ ∧ pGlobScoped.is_active = true ∧
     pGlobScoped ∉ applicablePolicies sGlob (some 2) ∧
     enforce_compliance_status_change sGlob mNoEvidence (some 2) .approved none =
       .ok (sGlob, { allowed := true, violation := none, message := "" }, [])) := by
  exact ⟨⟨rfl, rfl, rfl, rfl⟩, ⟨rfl, rfl, by decide, rfl⟩⟩

/-- C2 (amended): the applicable set is exactly the active policies and —
only when the entity's organization id is set and nonzero — those whose
`organization_id` is unset or equals it; `scope` is never consulted, and
for an entity with no (or zero) organization id every active policy
applies regardless of its `organization_id`.  Every evaluated policy and
every blocking policy comes from that applicable set (hence is active). -/
theorem C2_scoping_amended (s : Session) (m : ModelRegistry)
    (oid : Option Nat) (ns : ComplianceStatus) (uid : Option Nat)
    (hread : s.policyReadFails = false) :
    (∀ p, p ∈ applicablePolicies s oid ↔
        p ∈ s.policies ∧ p.is_active = true ∧
        (orgFilterApplies oid = true →
          (p.organization_id = none ∨ p.organization_id = oid)))
    ∧ (∀ s' r tr,
        enforce_compliance_status_change s m oid ns uid = .ok (s', r, tr) →
        (∀ p ∈ tr, p ∈ applicablePolicies s oid) ∧
        (∀ v, r.violation = some v →
          ∃ p ∈ applicablePolicies s oid, p.is_active = true ∧
            v = mkViolation p m ns uid)) := by
  have hmem : ∀ p : Policy, p ∈ applicablePolicies s oid ↔
      p ∈ s.policies ∧ p.is_active = true ∧
      (orgFilterApplies oid = true →
        (p.organization_id = none ∨ p.organization_id = oid)) := by
    intro p
    rw [applicablePolicies, List.mem_filter]
    cases horg : orgFilterApplies oid <;>
      simp [applicableFilter, horg, Bool.and_eq_true, Bool.or_eq_true]
  refine ⟨hmem, ?_⟩
  intro s' r tr h
  rw [enforce_compliance_status_change, get_active_policies_ok s oid hread] at h
  constructor
  · exact enforce_from_trace_mem s m ns uid _ s' r tr h
  · intro v hv
    obtain ⟨p, hp, hvp⟩ :=
      enforce_from_violation_origin s m ns uid _ s' r tr h v hv
    exact ⟨p, hp, ((hmem p).mp hp).2.1, hvp⟩

/-- C2 witness: for tenant 2, the org-1 policy is applicable iff it is
stored, active, and unset-or-matching — which it is not, so it does not
apply. -/
theorem C2_scoping_amended_witness :
    pOrg1 ∈ applicablePolicies sOrg (some 2) ↔
      pOrg1 ∈ sOrg.policies ∧ pOrg1.is_active = true ∧
      (orgFilterApplies (some 2) = true →
        (pOrg1.organization_id = none ∨ pOrg1.organization_id = some 2)) :=
  (C2_scoping_amended sOrg mNoEvidence (some 2) .approved none rfl).1 pOrg1

/-- C3: with a failing commit, enforcement never returns a successful
blocked result — any `ok` outcome is `allowed = true` with the session
unchanged; a failing policy read propagates as `PersistenceError`; and
when some applicable policy actually fails first, the failing commit
makes the whole call propagate `PersistenceError` instead of returning
any decision. -/
theorem C3_fail_closed (s : Session) (m : ModelRegistry) (oid : Option Nat)
    (ns : ComplianceStatus) (uid : Option Nat)
    (hc : s.commitFails = true) :
    (∀ s' r tr,
        enforce_compliance_status_change s m oid ns uid = .ok (s', r, tr) →
        r.allowed = true ∧ s' = s)
    ∧ (s.policyReadFails = true →
        enforce_compliance_status_change s m oid ns uid =
          .error .persistenceError)
    ∧ (s.policyReadFails = false →
        ∀ (k : Nat) (hk : k < (applicablePolicies s oid).length),
          runCheck s m ns ((applicablePolicies s oid).get ⟨k, hk⟩) = false →
          (∀ j (hj : j < k),
            runCheck s m ns ((applicablePolicies s oid).get ⟨j, Nat.lt_trans hj hk⟩) = true) →
          enforce_compliance_status_change s m oid ns uid =
            .error .persistenceError) := by
  refine ⟨?_, ?_, ?_⟩
  · intro s' r tr h
    rw [enforce_compliance_status_change] at h
    cases hga : get_active_policies s oid with
    | error e => rw [hga] at h; exact absurd h (by simp)
    | ok ps =>
      rw [hga] at h
      have hsub := enforce_from_commitFail_ok s m ns uid hc ps s' r tr h
      exact ⟨by rw [hsub.2], hsub.1⟩
  · intro hrf
    simp [enforce_compliance_status_change, get_active_policies, hrf]
  · intro hrf k hk hfail hbefore
    simp only [enforce_compliance_status_change, get_active_policies_ok s oid hrf]
    exact enforce_from_commitFail_firstFail s m ns uid hc _ k hk hfail hbefore

/-- C3 witness: with a failing commit and a violated evidence policy, the
enforcement call propagates `PersistenceError` (and in particular does
not return `allowed = true`). -/
theorem C3_fail_closed_witness :
    enforce_compliance_status_change sCommitFail mNoEvidence none .approved none =
      .error .persistenceError :=
  (C3_fail_closed sCommitFail mNoEvidence none .approved none rfl).2.2 rfl 0
    (by decide) (by decide) (fun j hj => absurd hj (Nat.not_lt_zero j))

/-- C4: when every applicable policy's predicate is satisfied (or none
is applicable), enforcement returns `allowed = true` with the session
unchanged — no violation row, no audit row, no entity mutation — and a
second call on the returned state yields the identical outcome. -/
theorem C4_allowed_no_side_effects (s : Session) (m : ModelRegistry)
    (oid : Option Nat) (ns : ComplianceStatus) (uid : Option Nat)
    (hread : s.policyReadFails = false)
    (hall : ∀ p ∈ applicablePolicies s oid, runCheck s m ns p = true) :
    enforce_compliance_status_change s m oid ns uid =
      .ok (s, { allowed := true, violation := none, message := "" },
           applicablePolicies s oid)
    ∧ ∀ s1 r1 t1,
        enforce_compliance_status_change s m oid ns uid = .ok (s1, r1, t1) →
        enforce_compliance_status_change s1 m oid ns uid = .ok (s1, r1, t1) := by
  have hmain : enforce_compliance_status_change s m oid ns uid =
      .ok (s, { allowed := true }, applicablePolicies s oid) := by
    simp only [enforce_compliance_status_change, get_active_policies_ok s oid hread]
    exact enforce_from_all_true s m ns uid _ hall
  refine ⟨hmain, ?_⟩
  intro s1 r1 t1 h
  rw [hmain] at h
  simp only [Except.ok.injEq, Prod.mk.injEq] at h
  obtain ⟨hs, hr, ht⟩ := h
  subst hs; subst hr; subst ht
  exact hmain

/-- C4 witness: one always-satisfied pass-through policy; approval is
allowed with the session unchanged. -/
theorem C4_allowed_no_side_effects_witness :
    enforce_compliance_status_change sNoop mNoEvidence none .approved none =
      .ok (sNoop, { allowed := true, violation := none, message := "" },
           [pNoop]) :=
  (C4_allowed_no_side_effects sNoop mNoEvidence none .approved none rfl
    (by decide)).1

/-- C5: the applicable policies are evaluated in stored (creation) order;
when the session's policy table is in creation order (oldest first) and
several applicable policies would fail, the reported blocking policy is
the earliest-created one: its `created_at` is at most that of every other
failing applicable policy. -/
theorem C5_creation_order (s : Session) (m : ModelRegistry) (oid : Option Nat)
    (ns : ComplianceStatus) (uid : Option Nat)
    (hread : s.policyReadFails = false) (hcommit : s.commitFails = false)
    (hsorted : s.policies.Pairwise (fun a b => a.created_at ≤ b.created_at))
    (k : Nat) (hk : k < (applicablePolicies s oid).length)
    (hfail : runCheck s m ns ((applicablePolicies s oid).get ⟨k, hk⟩) = false)
    (hbefore : ∀ j (hj : j < k),
      runCheck s m ns ((applicablePolicies s oid).get ⟨j, Nat.lt_trans hj hk⟩) = true) :
    enforce_compliance_status_change s m oid ns uid =
      .ok (commitBlock s ((applicablePolicies s oid).get ⟨k, hk⟩) m ns uid,
           blockResult ((applicablePolicies s oid).get ⟨k, hk⟩) m ns uid,
           (applicablePolicies s oid).take (k+1))
    ∧ ∀ q ∈ applicablePolicies s oid, runCheck s m ns q = false →
        ((applicablePolicies s oid).get ⟨k, hk⟩).created_at ≤ q.created_at := by
  constructor
  · simp only [enforce_compliance_status_change, get_active_policies_ok s oid hread]
    exact enforce_from_firstFail s m ns uid hcommit _ k hk hfail hbefore
  · intro q hq hqfail
    have hsorted' : (applicablePolicies s oid).Pairwise
        (fun a b => a.created_at ≤ b.created_at) := by
      unfold applicablePolicies
      exact hsorted.filter _
    obtain ⟨⟨j, hjlen⟩, hjq⟩ := List.mem_iff_get.mp hq
    rcases lt_trichotomy j k with hjk | hjk | hjk
    · have ht := hbefore j hjk
      rw [show (applicablePolicies s oid).get ⟨j, Nat.lt_trans hjk hk⟩ = q from hjq] at ht
      rw [ht] at hqfail
      exact absurd hqfail (by simp)
    · subst hjk
      rw [show (applicablePolicies s oid).get ⟨j, hk⟩ = q from hjq]
    · have hp := List.pairwise_iff_get.mp hsorted' ⟨k, hk⟩ ⟨j, hjlen⟩ hjk
      rw [hjq] at hp
      exact hp

/-- C5 witness: two failing evidence policies created at times 1 and 2;
the blocking policy is the one created at time 1. -/
theorem C5_creation_order_witness :
    enforce_compliance_status_change sTwoFail mNoEvidence none .approved none =
      .ok (commitBlock sTwoFail pEval mNoEvidence .approved none,
           blockResult pEval mNoEvidence .approved none, [pEval]) ∧
    pEval.created_at ≤ pEval2.created_at := by
  have h := C5_creation_order sTwoFail mNoEvidence none .approved none rfl rfl
    (by decide) 0 (by decide) (by decide)
    (fun j hj => absurd hj (Nat.not_lt_zero j))
  exact ⟨h.1, h.2 pEval2 (by decide) (by decide)⟩

/-- C8 counterexample: for a blocking policy with a description, the
returned message carries the `: <description>` suffix but the persisted
violation's `reason` does not — refuting the claim that both strings
equal the suffixed format. -/
theorem C8_counterexample :
    (blockResult pDesc mNoEvidence .approved none).message =
      "Policy \x27P8\x27 blocked this action: needs evidence" ∧
    (mkViolation pDesc mNoEvidence .approved none).details.reason =
      "Policy \x27P8\x27 blocked this action" ∧
    (mkViolation pDesc mNoEvidence .approved none).details.reason ≠
      "Policy \x27P8\x27 blocked this action: needs evidence" ∧
    enforce_compliance_status_change sDesc mNoEvidence none .approved none =
      .ok (commitBlock sDesc pDesc mNoEvidence .approved none,
           blockResult pDesc mNoEvidence .approved none, [pDesc]) := by
  refine ⟨rfl, rfl, by decide, rfl⟩

/-- C8 (amended): whenever a policy blocks a transition, the returned
decision message equals "Policy \x27name\x27 blocked this action:
description-or-condition-type", while the reason persisted in the
violation record equals "Policy \x27name\x27 blocked this action" with no
suffix. -/
theorem C8_violation_reason_format (s : Session) (m : ModelRegistry)
    (oid : Option Nat) (ns : ComplianceStatus) (uid : Option Nat)
    (hread : s.policyReadFails = false) (hcommit : s.commitFails = false)
    (k : Nat) (hk : k < (applicablePolicies s oid).length)
    (hfail : runCheck s m ns ((applicablePolicies s oid).get ⟨k, hk⟩) = false)
    (hbefore : ∀ j (hj : j < k),
      runCheck s m ns ((applicablePolicies s oid).get ⟨j, Nat.lt_trans hj hk⟩) = true) :
    enforce_compliance_status_change s m oid ns uid =
      .ok (commitBlock s ((applicablePolicies s oid).get ⟨k, hk⟩) m ns uid,
           blockResult ((applicablePolicies s oid).get ⟨k, hk⟩) m ns uid,
           (applicablePolicies s oid).take (k+1))
    ∧ (blockResult ((applicablePolicies s oid).get ⟨k, hk⟩) m ns uid).message =
        "Policy \x27" ++ ((applicablePolicies s oid).get ⟨k, hk⟩).name ++
          "\x27 blocked this action: " ++
          (match ((applicablePolicies s oid).get ⟨k, hk⟩).description with
           | some d => if d == "" then
               ((applicablePolicies s oid).get ⟨k, hk⟩).condition_type.value
             else d
           | none => ((applicablePolicies s oid).get ⟨k, hk⟩).condition_type.value)
    ∧ (mkViolation ((applicablePolicies s oid).get ⟨k, hk⟩) m ns uid).details.reason =
        "Policy \x27" ++ ((applicablePolicies s oid).get ⟨k, hk⟩).name ++
          "\x27 blocked this action"
    ∧ (commitBlock s ((applicablePolicies s oid).get ⟨k, hk⟩) m ns uid).violations =
        s.violations ++ [mkViolation ((applicablePolicies s oid).get ⟨k, hk⟩) m ns uid] := by
  refine ⟨?_, rfl, rfl, rfl⟩
  simp only [enforce_compliance_status_change, get_active_policies_ok s oid hread]
  exact enforce_from_firstFail s m ns uid hcommit _ k hk hfail hbefore

/-- C8 witness: the described policy blocks the no-evidence approval and
the two strings take the stated forms. -/
theorem C8_violation_reason_format_witness :
    enforce_compliance_status_change sDesc mNoEvidence none .approved none =
      .ok (commitBlock sDesc pDesc mNoEvidence .approved none,
           blockResult pDesc mNoEvidence .approved none, [pDesc]) := by
  have h := C8_violation_reason_format sDesc mNoEvidence none .approved none
    rfl rfl 0 (by decide) (by decide)
    (fun j hj => absurd hj (Nat.not_lt_zero j))
  exact h.1

/-- C6 witness: a non-approval transition is satisfied regardless of
evidence. -/
theorem C6_evidence_before_approval_witness :
    check_require_evaluation_before_approval sDesc mNoEvidence .draft = true :=
  (C6_evidence_before_approval_semantics sDesc mNoEvidence .draft).2.1
    (by decide)

end Theorems

end AIGovHub
